import Mathlib

/-!
Verification of the PiCamera line-following vision pipeline.

The development embeds two parts of the program:

* the slice-based line-centroid tracker (`FrameProcessor.cpp`, and the inline
  variant in `CameraSensor::renderFrame`): adaptive threshold, contour
  selection by maximal area, centroid from first-order moments, per-slice
  fallback;
* the buffer/request lifecycle (`CameraSensor::sendRequests`,
  `CameraSensor::startCamera`, the two `requestComplete` handlers in
  `CameraSensor.cpp` and `camera.cpp`).

OpenCV and libcamera are external collaborators; their primitives
(`cv::contourArea`, `cv::moments`, `cv::boundingRect`, `cv::mean`,
`std::clamp`, request/queue operations) are modelled by their documented
semantics, while contour extraction (`cv::findContours`) is treated as an
oracle: the functions below take its result as input.  C++ `double`
arithmetic is idealised as exact rational arithmetic, and
`static_cast<int>` on a non-negative value as truncation toward zero.
-/

namespace PiCamera

/-! ### Geometry: contours, rectangles, moments (OpenCV primitives) -/

/-- A contour as returned by `cv::findContours`: a polygon given by its
vertices (integer pixel coordinates). `cv::findContours` never returns an
empty point list. -/
abbrev Contour := List (ℤ × ℤ)

/-- Model of `cv::Point`. -/
structure CvPoint where
  x : ℤ
  y : ℤ
deriving DecidableEq

/-- Model of `cv::Rect`. -/
structure CvRect where
  x : ℤ
  y : ℤ
  width : ℤ
  height : ℤ
deriving DecidableEq

/-- `cv::Rect::area()`. -/
def CvRect.area (r : CvRect) : ℤ := r.width * r.height

/-- Cross product term `x_i * y_j - x_j * y_i` used by the shoelace formula. -/
def cross (p q : ℤ × ℤ) : ℤ := p.1 * q.2 - q.1 * p.2

/-- The cyclic successor pairs of a polygon's vertex list. -/
def cyclicPairs : Contour → List ((ℤ × ℤ) × (ℤ × ℤ))
  | [] => []
  | p :: ps => (p :: ps).zip (ps ++ [p])

/-- Twice the signed area of the polygon (shoelace sum). -/
def shoelace (c : Contour) : ℤ :=
  ((cyclicPairs c).map fun pq => cross pq.1 pq.2).sum

/-- Model of `cv::contourArea` (absolute polygon area by Green's theorem). -/
def contourArea (c : Contour) : ℚ := (|shoelace c| : ℚ) / 2

/-- The moments of `cv::moments` used by the program: the zeroth moment
`m00` and the first-order moment `m10`. -/
structure CvMoments where
  m00 : ℚ
  m10 : ℚ

/-- Six times the signed first-order moment of the polygon. -/
def m10sum (c : Contour) : ℤ :=
  ((cyclicPairs c).map fun pq => (pq.1.1 + pq.2.1) * cross pq.1 pq.2).sum

/-- Model of `cv::moments` on a contour: polygon moments by Green's theorem,
sign-normalised so that `m00 = contourArea`. -/
def moments (c : Contour) : CvMoments :=
  { m00 := (|shoelace c| : ℚ) / 2
    m10 := (if shoelace c < 0 then (-1 : ℚ) else 1) * (m10sum c : ℚ) / 6 }

/-- Model of `cv::boundingRect`: the minimal up-right rectangle containing
the point set; for a nonempty set both sides are at least one pixel. -/
def boundingRect : Contour → CvRect
  | [] => ⟨0, 0, 0, 0⟩
  | p :: ps =>
    let minX := ps.foldl (fun a q => min a q.1) p.1
    let maxX := ps.foldl (fun a q => max a q.1) p.1
    let minY := ps.foldl (fun a q => min a q.2) p.2
    let maxY := ps.foldl (fun a q => max a q.2) p.2
    ⟨minX, minY, maxX - minX + 1, maxY - minY + 1⟩

/-- Model of `std::max_element(contours.begin(), contours.end(), cmp)` with
`cmp a b = contourArea a < contourArea b`: the first contour of maximal
area, `none` on an empty range. -/
def maxElementArea : List Contour → Option Contour
  | [] => none
  | c :: cs => some (cs.foldl (fun m d => if contourArea m < contourArea d then d else m) c)

/-! ### Scalar helpers -/

/-- `static_cast<int>` applied to a C++ `double` holding the rational `q`:
truncation toward zero. -/
def cppTrunc (q : ℚ) : ℤ := q.num.tdiv (q.den : ℤ)

/-- Model of `cv::mean(slice)[0]`: the mean of the slice's pixel
intensities. -/
def cvMean (slicePixels : List ℕ) : ℚ :=
  (slicePixels.sum : ℚ) / (slicePixels.length : ℚ)

/-- Model of `std::clamp(v, lo, hi)` as specified by the C++ standard
library: `v < lo ? lo : hi < v ? hi : v`. -/
def stdClamp (v lo hi : ℤ) : ℤ := if v < lo then lo else if hi < v then hi else v

/-- Rational division that refuses a zero divisor, used to express that a
division in the code is only ever performed with a nonzero divisor. -/
def safeDiv (a b : ℚ) : Option ℚ := if b = 0 then none else some (a / b)

/-! ### FrameProcessor::processSlice (FrameProcessor.cpp) -/

/-- The adaptive threshold of `FrameProcessor::processSlice` line 68:
`std::clamp(static_cast<int>(cv::mean(slice)[0] * meanIntensityMult),
minThreshold, maxThreshold)`. -/
def sliceThreshold (slicePixels : List ℕ) (k : ℚ) (lo hi : ℤ) : ℤ :=
  stdClamp (cppTrunc (cvMean slicePixels * k)) lo hi

/-- The guarded centroid computation of `FrameProcessor::processSlice`
line 90: `(M.m00 != 0) ? static_cast<int>(M.m10 / M.m00) : slice.cols / 2`.
The division is expressed through `safeDiv`, so a zero divisor would
surface as `none`. -/
def contourCenterX (M : CvMoments) (cols : ℤ) : Option ℤ :=
  if M.m00 ≠ 0 then (safeDiv M.m10 M.m00).map cppTrunc else some (cols / 2)

/-- The confidence weight of `FrameProcessor::processSlice` line 99:
`cv::contourArea(mainContour) / cv::boundingRect(mainContour).area()`. -/
def extent (c : Contour) : ℚ :=
  contourArea c / (((boundingRect c).area : ℤ) : ℚ)

/-- `FrameProcessor::processSlice` from the point where the extracted
contours are known (`cv::findContours` is an external primitive, so its
result is a parameter): empty contour list falls back to the slice's
horizontal midpoint; otherwise the largest contour's guarded centroid is
used.  The returned `y` is `sliceHeight / 2 + sliceIndex * sliceHeight` on
both paths, exactly as in the source. -/
def processSlice (contours : List Contour) (cols sliceIndex sliceHeight : ℤ) : CvPoint :=
  match maxElementArea contours with
  | none => ⟨cols / 2, sliceHeight / 2 + sliceIndex * sliceHeight⟩
  | some mainContour =>
    ⟨(contourCenterX (moments mainContour) cols).getD 0,
      sliceHeight / 2 + sliceIndex * sliceHeight⟩

/-- The per-slice loop of `FrameProcessor::processFrame`: slice `i` is
processed with the contours extracted from slice `i`, and every slice
contributes exactly one centre to `contourCenters`. -/
def processFrame (sliceContours : List (List Contour)) (cols sliceHeight : ℤ) :
    List CvPoint :=
  sliceContours.enum.map fun ic => processSlice ic.2 cols (ic.1 : ℤ) sliceHeight

/-! ### Temporal correction (whole-frame variant) -/

/-- Modelled from the spec: `TrackingState` of the whole-frame tracker
variant ("previous primary contour, previous centroid X", spec section 3);
no revision under `src/` contains this state. -/
structure TrackingState where
  previousCentroidX : ℤ
deriving DecidableEq

/-- Modelled from the spec: the whole-frame variant's centroid of a single
contour, `centroidX = M10 / M00` guarding division by zero (spec
section 4.3), using the same moments model as the per-slice code. -/
def centroidX (c : Contour) : ℤ :=
  if (moments c).m00 ≠ 0 then cppTrunc ((moments c).m10 / (moments c).m00) else 0

/-- Modelled from the spec: the temporal-correction rule of the whole-frame
tracker variant (spec section 4.3 step 5), which is not among the files
under `src/`: if the largest contour's centroid X differs from the previous
centroid X by more than the jitter tolerance, search the current frame's
contours for one whose centroid is within tolerance of the previous value
and prefer it over the largest one. -/
def selectTemporal (contours : List Contour) (prevX tol : ℤ) : Option Contour :=
  match maxElementArea contours with
  | none => none
  | some mainContour =>
    if tol < |centroidX mainContour - prevX| then
      match contours.find? (fun c => decide (|centroidX c - prevX| ≤ tol)) with
      | some alt => some alt
      | none => some mainContour
    else some mainContour

/-- Modelled from the spec: `TrackingState` is updated with whichever
centroid is ultimately chosen (spec section 4.3 step 5). -/
def temporalUpdate (st : TrackingState) (contours : List Contour) (tol : ℤ) :
    TrackingState :=
  match selectTemporal contours st.previousCentroidX tol with
  | some c => ⟨centroidX c⟩
  | none => st

/-! ### Request lifecycle (CameraSensor.cpp, camera.cpp) -/

/-- `libcamera::FrameMetadata` per-plane status. -/
inductive FrameStatus
  | frameSuccess
  | frameError
  | frameCancelled
deriving DecidableEq

/-- `libcamera::Request::Status`. -/
inductive RequestStatus
  | requestPending
  | requestComplete
  | requestCancelled
deriving DecidableEq

/-- One stream as seen by `CameraSensor::sendRequests`: the queue
`frameBuffers[stream]` of allocated buffers (by id), plus whether the
external calls `camera->createRequest()` and `Request::addBuffer` succeed
for this stream. -/
structure StreamSlot where
  bufferQueue : List ℕ
  createOk : Bool
  addOk : Bool
deriving DecidableEq

/-- A created `libcamera::Request`: the buffer bound to it by `addBuffer`
(`none` if no buffer was bound). -/
structure Req where
  boundBuffer : Option ℕ
deriving DecidableEq

/-- The loop body of `CameraSensor::sendRequests` (CameraSensor.cpp lines
108 to 128): for each `StreamConfiguration` of `*config` (one iteration per
stream, not per buffer), create a request (throw on failure), bind
`frameBuffers[stream].front()` to it (throw on failure), and accumulate it
in `requests`.  A thrown exception is the `error` case. -/
def sendRequestsAux : List StreamSlot → List Req → Except Unit (List Req)
  | [], acc => .ok acc
  | s :: rest, acc =>
    if s.createOk then
      if s.addOk then sendRequestsAux rest (acc ++ [⟨s.bufferQueue.head?⟩])
      else .error ()
    else .error ()

/-- `CameraSensor::sendRequests`. -/
def sendRequests (streams : List StreamSlot) : Except Unit (List Req) :=
  sendRequestsAux streams []

/-- `CameraSensor::startCamera` (CameraSensor.cpp lines 34 to 41): run
`sendRequests` (an exception propagates to the caller before anything is
queued), then connect the completion handler, start the camera and queue
every request in `requests`.  The `ok` payload is the list of queued
requests. -/
def startCamera (streams : List StreamSlot) : Except Unit (List Req) :=
  match sendRequests streams with
  | .error e => .error e
  | .ok reqs => .ok reqs

/-- The requests submitted to the capture subsystem by `startCamera`:
none when `sendRequests` threw. -/
def queuedRequests (streams : List StreamSlot) : List Req :=
  match startCamera streams with
  | .error _ => []
  | .ok reqs => reqs

/-- The total number of buffers allocated across all streams
(`allocator->buffers(stream).size()` summed). -/
def allocatedBufferCount (streams : List StreamSlot) : ℕ :=
  (streams.map fun s => s.bufferQueue.length).sum

/-- The request-creation loop of `captureFrame` (camera.cpp lines 161 to
175) on its success path: one request per allocated buffer, each bound to
its own buffer. -/
def captureFrameRequests (bufferIds : List ℕ) : List Req :=
  bufferIds.map fun b => ⟨some b⟩

/-- One buffer of a completed request: its `metadata().status` and whether
the `renderFrame` call on it returns normally (`false` models a thrown,
caught exception). -/
structure BufferState where
  metaStatus : FrameStatus
  renderOk : Bool
deriving DecidableEq

/-- A request as seen by a completion handler: its status and its buffers. -/
structure RequestState where
  status : RequestStatus
  buffers : List BufferState
deriving DecidableEq

/-- Observable actions of a completion handler: rendering (tracking) the
frame in buffer `i`, and re-queueing the request
(`request->reuse(Request::ReuseBuffers); camera->queueRequest(request)`). -/
inductive CamAction
  | render (i : ℕ)
  | requeue
deriving DecidableEq

/-- `CameraSensor::requestComplete` (CameraSensor.cpp lines 130 to 151):
return immediately on a cancelled request; otherwise, for each buffer whose
metadata status is `FrameSuccess`, try to render it and, still inside the
success branch and the try block, reuse and re-queue the request.  A buffer
whose status is not `FrameSuccess` triggers no action at all, and a throwing
render skips the re-queue. -/
def requestCompleteSensor (r : RequestState) : List CamAction :=
  if r.status = .requestCancelled then []
  else
    r.buffers.enum.foldl
      (fun acts ib =>
        if ib.2.metaStatus = .frameSuccess then
          if ib.2.renderOk then acts ++ [.render ib.1, .requeue] else acts
        else acts)
      []

/-- The static `requestComplete` of camera.cpp (lines 61 to 83): return
immediately on a cancelled request; otherwise render each `FrameSuccess`
buffer (exceptions caught), then unconditionally reuse and re-queue the
request after the loop. -/
def requestCompleteCam (r : RequestState) : List CamAction :=
  if r.status = .requestCancelled then []
  else
    (r.buffers.enum.foldl
      (fun acts ib =>
        if ib.2.metaStatus = .frameSuccess then
          if ib.2.renderOk then acts ++ [.render ib.1] else acts
        else acts)
      []) ++ [.requeue]

/-! ### Concrete inputs used by witnesses and counterexamples -/

/-- One stream whose buffer queue holds two allocated buffers, with all
external calls succeeding. -/
def twoBufferStream : StreamSlot := ⟨[0, 1], true, true⟩

/-- A completed request whose single buffer reports a hardware frame
error. -/
def errorFrameRequest : RequestState := ⟨.requestComplete, [⟨.frameError, true⟩]⟩

/-- A stream on which `addBuffer` fails. -/
def badAddStream : StreamSlot := ⟨[0], true, false⟩

/-- An axis-aligned rectangle contour from `x = a` to `x = b` of height
`h`, listed counterclockwise; its area is `h * (b - a)` and its centroid X
is `(a + b) / 2`. -/
def rectContour (a b h : ℤ) : Contour := [(a, 0), (b, 0), (b, h), (a, h)]

/-- The large jumping contour of the spec's smoothing scenario: area 400,
centroid X 140. -/
def mainRect : Contour := rectContour 120 160 10

/-- The smaller alternate contour of the spec's smoothing scenario: area
50, centroid X 100. -/
def altRect : Contour := rectContour 95 105 5

/-! ### Helper lemmas -/

theorem foldl_min_le (f : (ℤ × ℤ) → ℤ) (ps : List (ℤ × ℤ)) (a : ℤ) :
    ps.foldl (fun b q => min b (f q)) a ≤ a := by
  induction ps generalizing a with
  | nil => simp
  | cons p ps ih =>
    calc (p :: ps).foldl (fun b q => min b (f q)) a
        = ps.foldl (fun b q => min b (f q)) (min a (f p)) := rfl
      _ ≤ min a (f p) := ih _
      _ ≤ a := min_le_left _ _

theorem le_foldl_max (f : (ℤ × ℤ) → ℤ) (ps : List (ℤ × ℤ)) (a : ℤ) :
    a ≤ ps.foldl (fun b q => max b (f q)) a := by
  induction ps generalizing a with
  | nil => simp
  | cons p ps ih =>
    calc a ≤ max a (f p) := le_max_left _ _
      _ ≤ ps.foldl (fun b q => max b (f q)) (max a (f p)) := ih _

theorem find?_exists_of_mem {α : Type} (p : α → Bool) (l : List α) (x : α)
    (hx : x ∈ l) (hpx : p x = true) :
    ∃ y, l.find? p = some y ∧ p y = true := by
  induction l with
  | nil => cases hx
  | cons a as ih =>
    cases hpa : p a with
    | true => exact ⟨a, List.find?_cons_of_pos _ hpa, hpa⟩
    | false =>
      have hxas : x ∈ as := by
        rcases List.mem_cons.mp hx with rfl | h2
        · rw [hpx] at hpa; cases hpa
        · exact h2
      obtain ⟨y, hy, hpy⟩ := ih hxas
      exact ⟨y, by rw [List.find?_cons_of_neg _ (by simp [hpa])]; exact hy, hpy⟩

theorem sendRequestsAux_error (streams : List StreamSlot) (acc : List Req)
    (h : ∃ s ∈ streams, s.createOk = false ∨ s.addOk = false) :
    sendRequestsAux streams acc = .error () := by
  induction streams generalizing acc with
  | nil => simp at h
  | cons s rest ih =>
    obtain ⟨t, ht, hbad⟩ := h
    rcases List.mem_cons.mp ht with rfl | htr
    · unfold sendRequestsAux
      rcases hbad with hc | ha
      · simp [hc]
      · by_cases hc : t.createOk
        · simp [hc, ha]
        · simp [hc]
    · unfold sendRequestsAux
      by_cases hc : s.createOk
      · by_cases ha2 : s.addOk
        · simp only [hc, ha2, if_true]
          exact ih _ ⟨t, htr, hbad⟩
        · simp [hc, ha2]
      · simp [hc]

theorem cppTrunc_intCast (n : ℤ) : cppTrunc (n : ℚ) = n := by
  unfold cppTrunc
  simp [Rat.num_intCast, Rat.den_intCast]

theorem shoelace_mainRect : shoelace mainRect = 800 := by decide

theorem m10sum_mainRect : m10sum mainRect = 336000 := by decide

theorem shoelace_altRect : shoelace altRect = 100 := by decide

theorem m10sum_altRect : m10sum altRect = 30000 := by decide

theorem moments_mainRect : moments mainRect = ⟨400, 56000⟩ := by
  unfold moments
  rw [shoelace_mainRect, m10sum_mainRect]
  norm_num [CvMoments.mk.injEq]

theorem moments_altRect : moments altRect = ⟨50, 5000⟩ := by
  unfold moments
  rw [shoelace_altRect, m10sum_altRect]
  norm_num [CvMoments.mk.injEq]

theorem centroidX_mainRect : centroidX mainRect = 140 := by
  unfold centroidX
  rw [moments_mainRect]
  have h1 : ((⟨400, 56000⟩ : CvMoments).m10 / (⟨400, 56000⟩ : CvMoments).m00 : ℚ)
      = ((140 : ℤ) : ℚ) := by norm_num
  rw [if_pos (by norm_num : ((⟨400, 56000⟩ : CvMoments).m00 : ℚ) ≠ 0), h1,
    cppTrunc_intCast]

theorem centroidX_altRect : centroidX altRect = 100 := by
  unfold centroidX
  rw [moments_altRect]
  have h1 : ((⟨50, 5000⟩ : CvMoments).m10 / (⟨50, 5000⟩ : CvMoments).m00 : ℚ)
      = ((100 : ℤ) : ℚ) := by norm_num
  rw [if_pos (by norm_num : ((⟨50, 5000⟩ : CvMoments).m00 : ℚ) ≠ 0), h1,
    cppTrunc_intCast]

theorem area_alt_lt_main : contourArea altRect < contourArea mainRect := by
  unfold contourArea
  rw [shoelace_altRect, shoelace_mainRect]
  norm_num

theorem maxElementArea_pair : maxElementArea [altRect, mainRect] = some mainRect := by
  unfold maxElementArea
  simp only [List.foldl]
  rw [if_pos area_alt_lt_main]

theorem centroid_jump_mainRect : (5 : ℤ) < |centroidX mainRect - (100 : ℤ)| := by
  rw [centroidX_mainRect]; decide

theorem centroid_close_altRect : |centroidX altRect - (100 : ℤ)| ≤ 5 := by
  rw [centroidX_altRect]; decide

/-! ### Claim theorems -/

/-- C4: for every slice in which contour extraction finds no contours, the
slice's result falls back to the slice's horizontal midpoint (and the
slice's vertical midline) as the centroid, and the per-slice sequence
produced by `processFrame` has one entry per slice, so no gap is ever
produced. -/
theorem processSlice_empty_contours_fallback
    (sliceContours : List (List Contour)) (cols sliceHeight : ℤ) :
    (∀ sliceIndex : ℤ, processSlice [] cols sliceIndex sliceHeight =
        ⟨cols / 2, sliceIndex * sliceHeight + sliceHeight / 2⟩) ∧
    (processFrame sliceContours cols sliceHeight).length = sliceContours.length := by
  constructor
  · intro sliceIndex
    simp [processSlice, maxElementArea, CvPoint.mk.injEq, Int.add_comm]
  · simp [processFrame]

/-- C10: for every processed slice, the `y` coordinate of the returned
contour centre is the slice's vertical midpoint
`sliceIndex * sliceHeight + sliceHeight / 2`, whether or not a contour was
found; only the `x` coordinate depends on the extracted contours. -/
theorem processSlice_y_fixed_midline
    (contours : List Contour) (cols sliceIndex sliceHeight : ℤ) :
    (processSlice contours cols sliceIndex sliceHeight).y
      = sliceIndex * sliceHeight + sliceHeight / 2 := by
  unfold processSlice
  cases maxElementArea contours <;> simp [Int.add_comm]

/-- C6: the centroid computation `M10 / M00` of
`FrameProcessor::processSlice` is guarded: for every moments value it
returns a defined result without ever performing a division by zero, and
when `m00 = 0` the result is the fallback `cols / 2` with no division
performed at all. -/
theorem contourCenterX_never_none (M : CvMoments) (cols : ℤ) :
    ∃ v, contourCenterX M cols = some v ∧ (M.m00 = 0 → v = cols / 2) := by
  by_cases h : M.m00 = 0
  · exact ⟨cols / 2, by simp [contourCenterX, h], fun _ => rfl⟩
  · exact ⟨cppTrunc (M.m10 / M.m00), by simp [contourCenterX, safeDiv, h],
      fun h0 => absurd h0 h⟩

/-- C6 witness: the guarded centroid at the degenerate moments `m00 = 0`
is defined and equals the fallback. -/
theorem contourCenterX_never_none_witness :
    ∃ v, contourCenterX ⟨0, 7⟩ 10 = some v ∧
      ((⟨0, 7⟩ : CvMoments).m00 = 0 → v = 10 / 2) :=
  contourCenterX_never_none ⟨0, 7⟩ 10

/-- C9: a request whose status is `RequestCancelled` makes both completion
handlers return immediately: no buffer is rendered (no tracking) and no
request is re-queued. -/
theorem requestComplete_cancelled_no_action (r : RequestState)
    (h : r.status = .requestCancelled) :
    requestCompleteSensor r = [] ∧ requestCompleteCam r = [] := by
  simp [requestCompleteSensor, requestCompleteCam, h]

/-- C9 witness: a concrete cancelled request with a successful buffer still
triggers no action in either handler. -/
theorem requestComplete_cancelled_no_action_witness :
    requestCompleteSensor ⟨.requestCancelled, [⟨.frameSuccess, true⟩]⟩ = [] ∧
      requestCompleteCam ⟨.requestCancelled, [⟨.frameSuccess, true⟩]⟩ = [] :=
  requestComplete_cancelled_no_action _ rfl

/-- C5: for every slice, the binarisation threshold of
`FrameProcessor::processSlice` equals
`clamp(mean(slice) * k, minThreshold, maxThreshold)` with the mean taken
over that slice, and whenever `minThreshold ≤ maxThreshold` (as with the
defaults 90 and 170) the threshold lies within
`[minThreshold, maxThreshold]`. -/
theorem sliceThreshold_is_clamped (slicePixels : List ℕ) (k : ℚ) (lo hi : ℤ)
    (h : lo ≤ hi) :
    sliceThreshold slicePixels k lo hi
        = max lo (min (cppTrunc (cvMean slicePixels * k)) hi) ∧
      lo ≤ sliceThreshold slicePixels k lo hi ∧
      sliceThreshold slicePixels k lo hi ≤ hi := by
  unfold sliceThreshold stdClamp
  refine ⟨?_, ?_, ?_⟩ <;> split_ifs <;> omega

/-- C5 witness: a slice of mean intensity 110 with the default
`k = 0.95`, bounds 90 and 170. -/
theorem sliceThreshold_is_clamped_witness :
    (90 : ℤ) ≤ 170 ∧
      (sliceThreshold [100, 120] (19 / 20) 90 170
          = max 90 (min (cppTrunc (cvMean [100, 120] * (19 / 20))) 170) ∧
        (90 : ℤ) ≤ sliceThreshold [100, 120] (19 / 20) 90 170 ∧
        sliceThreshold [100, 120] (19 / 20) 90 170 ≤ 170) :=
  ⟨by decide, sliceThreshold_is_clamped [100, 120] (19 / 20) 90 170 (by decide)⟩

/-- C1: evaluation of `CameraSensor::sendRequests` at a stream with two
allocated buffers.  The loop iterates once per `StreamConfiguration`, not
once per buffer, and binds only `frameBuffers[stream].front()`, so exactly
one request (bound to buffer 0) is created and queued while two buffers are
allocated — the claimed "one Request in flight per allocated Buffer"
invariant fails.  By contrast the request-creation loop of
`captureFrame` (camera.cpp) does create one request per buffer. -/
theorem sendRequests_undercounts_buffers :
    queuedRequests [twoBufferStream] = [⟨some 0⟩] ∧
      allocatedBufferCount [twoBufferStream] = 2 ∧
      (queuedRequests [twoBufferStream]).length ≠ allocatedBufferCount [twoBufferStream] ∧
      (captureFrameRequests twoBufferStream.bufferQueue).map Req.boundBuffer
        = [some 0, some 1] := by
  decide

/-- C2: evaluation of `CameraSensor::requestComplete` at a completed
request whose single buffer reports `FrameError`.  Because
`request->reuse` and `camera->queueRequest` sit inside the `FrameSuccess`
branch, the handler performs no action at all — the request is neither
tracked nor re-queued, starving the buffer pool — whereas the camera.cpp
handler re-queues it as the claim demands. -/
theorem requestCompleteSensor_drops_error_frame :
    requestCompleteSensor errorFrameRequest = [] ∧
      CamAction.requeue ∈ requestCompleteCam errorFrameRequest := by
  decide

/-- C7: for every selected primary contour — contour extraction never
returns an empty point list, so the contour is nonempty — the bounding box
computed by `cv::boundingRect` has positive area, so the confidence-weight
division `contourArea / boundingBoxArea` in
`FrameProcessor::processSlice` (the `extent`) is never performed with a
zero divisor. -/
theorem boundingRect_area_pos (c : Contour) (h : c ≠ []) :
    0 < (boundingRect c).area ∧ ((boundingRect c).area : ℚ) ≠ 0 := by
  obtain ⟨p, ps, rfl⟩ : ∃ p ps, c = p :: ps := by
    cases c with
    | nil => exact absurd rfl h
    | cons p ps => exact ⟨p, ps, rfl⟩
  have hx := le_trans (foldl_min_le Prod.fst ps p.1) (le_foldl_max Prod.fst ps p.1)
  have hy := le_trans (foldl_min_le Prod.snd ps p.2) (le_foldl_max Prod.snd ps p.2)
  have h1 : 0 < ps.foldl (fun a q => max a q.1) p.1
      - ps.foldl (fun a q => min a q.1) p.1 + 1 := by omega
  have h2 : 0 < ps.foldl (fun a q => max a q.2) p.2
      - ps.foldl (fun a q => min a q.2) p.2 + 1 := by omega
  have harea : 0 < (boundingRect (p :: ps)).area := by
    simpa [boundingRect, CvRect.area] using mul_pos h1 h2
  exact ⟨harea, by exact_mod_cast harea.ne'⟩

/-- C7 witness: the degenerate one-point contour still has a bounding box
of area one, not zero. -/
theorem boundingRect_area_pos_witness :
    ([((3 : ℤ), (4 : ℤ))] : Contour) ≠ [] ∧
      (0 < (boundingRect [((3 : ℤ), (4 : ℤ))]).area ∧
        ((boundingRect [((3 : ℤ), (4 : ℤ))]).area : ℚ) ≠ 0) :=
  ⟨by decide, boundingRect_area_pos _ (by decide)⟩

/-- C8: `startCamera` is all-or-nothing: if on any stream the request
cannot be created (`createRequest` returns null) or the buffer cannot be
bound (`addBuffer` fails), the thrown exception propagates out of
`sendRequests` before `camera->start()` and the queueing loop run, so the
operation fails and no request at all is submitted to the capture
subsystem. -/
theorem startCamera_all_or_nothing (streams : List StreamSlot)
    (h : ∃ s ∈ streams, s.createOk = false ∨ s.addOk = false) :
    startCamera streams = .error () ∧ queuedRequests streams = [] := by
  have he : sendRequests streams = .error () := sendRequestsAux_error streams [] h
  exact ⟨by simp [startCamera, he], by simp [queuedRequests, startCamera, he]⟩

/-- C8 witness: one stream on which `addBuffer` fails: nothing is queued. -/
theorem startCamera_all_or_nothing_witness :
    (∃ s ∈ [badAddStream], s.createOk = false ∨ s.addOk = false) ∧
      (startCamera [badAddStream] = .error () ∧ queuedRequests [badAddStream] = []) :=
  ⟨⟨badAddStream, by simp, Or.inr rfl⟩,
    startCamera_all_or_nothing _ ⟨badAddStream, by simp, Or.inr rfl⟩⟩

/-- C3: when the largest contour's centroid X differs from
`TrackingState.previousCentroidX` by more than the jitter tolerance and
some contour of the current frame has a centroid X within tolerance of the
previous value, the temporal-correction rule selects such an alternate
contour (not the naively largest one) and `TrackingState` is updated with
the chosen centroid. -/
theorem temporal_correction_prefers_alternate
    (contours : List Contour) (st : TrackingState) (tol : ℤ) (mainContour : Contour)
    (hmain : maxElementArea contours = some mainContour)
    (hjump : tol < |centroidX mainContour - st.previousCentroidX|)
    (halt : ∃ c ∈ contours, |centroidX c - st.previousCentroidX| ≤ tol) :
    ∃ chosen, selectTemporal contours st.previousCentroidX tol = some chosen ∧
      |centroidX chosen - st.previousCentroidX| ≤ tol ∧
      temporalUpdate st contours tol = ⟨centroidX chosen⟩ := by
  obtain ⟨c0, hc0, hc0p⟩ := halt
  obtain ⟨y, hy, hyp⟩ := find?_exists_of_mem
    (fun c => decide (|centroidX c - st.previousCentroidX| ≤ tol)) contours c0 hc0
    (decide_eq_true hc0p)
  have hsel : selectTemporal contours st.previousCentroidX tol = some y := by
    unfold selectTemporal
    simp only [hmain]
    rw [if_pos hjump]
    simp only [hy]
  refine ⟨y, hsel, of_decide_eq_true hyp, ?_⟩
  unfold temporalUpdate
  rw [hsel]

/-- C3 witness: the spec's smoothing scenario: previous centroid 100,
largest contour centroid 140 (jump of 40 px), alternate smaller contour at
centroid 100; with tolerance 5 the alternate is chosen and becomes the new
state. -/
theorem temporal_correction_prefers_alternate_witness :
    (maxElementArea [altRect, mainRect] = some mainRect ∧
      (5 : ℤ) < |centroidX mainRect - (100 : ℤ)| ∧
      ∃ c ∈ [altRect, mainRect], |centroidX c - (100 : ℤ)| ≤ 5) ∧
      ∃ chosen, selectTemporal [altRect, mainRect] 100 5 = some chosen ∧
        |centroidX chosen - (100 : ℤ)| ≤ 5 ∧
        temporalUpdate ⟨100⟩ [altRect, mainRect] 5 = ⟨centroidX chosen⟩ :=
  ⟨⟨maxElementArea_pair, centroid_jump_mainRect,
      ⟨altRect, by simp, centroid_close_altRect⟩⟩,
    temporal_correction_prefers_alternate [altRect, mainRect] ⟨100⟩ 5 mainRect
      maxElementArea_pair centroid_jump_mainRect
      ⟨altRect, by simp, centroid_close_altRect⟩⟩

end PiCamera
